import Mathlib

/-!
Shallow embedding of `app/server.py`: a small HTTP server that downloads a
pre-trained fastai model artifact at startup, loads it, and serves two
routes (a static page and an image-classification endpoint).

Modelling conventions:
* the file system is a map `String → Option Bytes` (path to file contents);
* the network is a map `String → Except PyError HttpResponse` (a GET either
  returns a response or raises a network error, which the code leaves
  unhandled);
* externally supplied framework operations (fastai's `load_learner`,
  `open_image`, `learn.predict`) are parameters of the embedding, since the
  repository delegates them wholesale to the framework;
* side effects are made explicit through a returned list of `Event`s
  (network GETs, file writes, the load attempt, the listener starting).
-/

namespace DriverServer

/-- Raw file contents: a sequence of byte values. -/
abbrev Bytes := List Nat

/-- A Python exception, as far as this program distinguishes them:
`server.py` only ever inspects `RuntimeError` and its `args`. -/
inductive PyError where
  | runtimeError (args : List String)
  | keyError (key : String)
  | fileNotFound (path : String)
  | other (name : String)
deriving DecidableEq, Repr

/-- An HTTP response to a GET, as `aiohttp` delivers it: a status code and
the full body read by `await response.read()`. -/
structure HttpResponse where
  status : Nat
  body : Bytes
deriving DecidableEq, Repr

/-- The local file system at some instant. -/
abbrev FS := String → Option Bytes

/-- Observable side effects of the program, used to state ordering and
frame properties. -/
inductive Event where
  | netGet (url : String)
  | fsWrite (path : String) (data : Bytes)
  | loadAttempt
  | listenStart
deriving DecidableEq, Repr

/-- `c1` begins the character list `c2`. Helper for Python's substring
test. -/
def charsLead : List Char → List Char → Bool
  | [], _ => true
  | _ :: _, [] => false
  | a :: as, b :: bs => a == b && charsLead as bs

/-- `needle` occurs contiguously inside the character list. -/
def charsHave (needle : List Char) : List Char → Bool
  | [] => charsLead needle []
  | c :: rest => charsLead needle (c :: rest) || charsHave needle rest

/-- Python's `needle in hay` on strings: contiguous substring test. -/
def pyIn (needle hay : String) : Bool :=
  charsHave needle.toList hay.toList

/-- `export_file_url` constant from `server.py`. -/
def export_file_url : String :=
  "https://www.dropbox.com/s/v2v5osbpk4m6i4s/driver?dl=0"

/-- `export_file_name` constant from `server.py`. -/
def export_file_name : String := "driver"

/-- The `classes` list from `server.py`: ten human-readable label strings. -/
def classes : List String :=
  ["c0: normal driving",
   "c1: texting - right",
   "c2: talking on the phone - right",
   "c3: texting - left",
   "c4: talking on the phone - left",
   "c5: operating the radio",
   "c6: drinking",
   "c7: reaching behind",
   "c8: hair and makeup",
   "c9: talking to passenger"]

/-- A decoded image, as produced by fastai's `open_image`; this program
never looks inside it, it only passes it to `learn.predict`. -/
structure Image where
  data : Bytes
deriving DecidableEq, Repr

/-- The triple returned by fastai's `learn.predict`: the predicted
category (whose `str` is the label string the server returns), the class
index, and the probability vector. `server.py` only uses index `[0]`. -/
structure Prediction where
  category : String
  classIdx : Nat
  probs : List Nat

/-- The loaded model object: the single capability this program uses. -/
structure Learner where
  predict : Image → Prediction

/--
`download_file(url, dest)` from `server.py`:
if the destination file already exists, return immediately; otherwise GET
the url, read the whole body, and write it to `dest`. The returned event
list records the GET and the write; the GET itself may raise (network
errors are unhandled in the source, so they propagate as `Except.error`).
The response status is never examined.
-/
def download_file (net : String → Except PyError HttpResponse) (fs : FS)
    (url dest : String) : List Event × Except PyError FS :=
  match fs dest with
  | some _ => ([], Except.ok fs)
  | none =>
    match net url with
    | Except.error e => ([Event.netGet url], Except.error e)
    | Except.ok response =>
      let data := response.body
      ([Event.netGet url, Event.fsWrite dest data],
       Except.ok (fun p => if p = dest then some data else fs p))

/-- The remediation message raised by `setup_learner` on the known
CPU-only incompatibility (string literal from `server.py`). -/
def cpuMessage : String :=
  "\n\nThis model was trained with an old version of fastai and will not work in a CPU environment.\n\nPlease update the fastai library in your training environment and export your model again.\n\nSee instructions for \x27Returning to work\x27 at https://course.fast.ai."

/--
`setup_learner()` from `server.py`: await `download_file`, then try
`load_learner(path, export_file_name)`. A `RuntimeError` whose first
argument contains `"CPU-only machine"` is replaced by a fresh
`RuntimeError` carrying `cpuMessage`; every other exception propagates
unchanged. `load` stands for fastai's `load_learner` reading the artifact
from the file system that results from the download.
-/
def setup_learner (net : String → Except PyError HttpResponse) (fs : FS)
    (load : FS → Except PyError Learner) (url dest : String) :
    List Event × Except PyError (FS × Learner) :=
  match download_file net fs url dest with
  | (ev1, Except.error e) => (ev1, Except.error e)
  | (ev1, Except.ok fs1) =>
    (ev1 ++ [Event.loadAttempt],
      match load fs1 with
      | Except.ok learn => Except.ok (fs1, learn)
      | Except.error (PyError.runtimeError args) =>
        if 0 < args.length ∧ pyIn "CPU-only machine" (args.headD "") = true then
          Except.error (PyError.runtimeError [cpuMessage])
        else
          Except.error (PyError.runtimeError args)
      | Except.error e => Except.error e)

/-- Outcome of one process start of `server.py`. -/
inductive StartupOutcome where
  | crashed (e : PyError)
  | setupOnly (fs : FS) (learn : Learner)
  | serving (fs : FS) (learn : Learner)

/--
One process start of `python app/server.py <argv>`: the module body runs
`loop.run_until_complete(setup_learner())` synchronously; an exception
there aborts the process before `uvicorn.run` is reached. Otherwise the
`__main__` guard starts the uvicorn listener exactly when `'serve' in
sys.argv`. `argv` models Python's `sys.argv`; `path` models
`Path(__file__).parent`.
-/
def processStart (net : String → Except PyError HttpResponse) (fs : FS)
    (load : FS → Except PyError Learner) (argv : List String)
    (path : String) : List Event × StartupOutcome :=
  match setup_learner net fs load export_file_url
      (path ++ "/" ++ export_file_name) with
  | (ev, Except.error e) => (ev, StartupOutcome.crashed e)
  | (ev, Except.ok (fs1, learn)) =>
    if argv.contains "serve" then
      (ev ++ [Event.listenStart], StartupOutcome.serving fs1 learn)
    else
      (ev, StartupOutcome.setupOnly fs1 learn)

/-- Body of an HTTP response produced by the server: a Starlette
`HTMLResponse`, a `JSONResponse` whose body is an object given as a field
list, or the framework's generic error page for an unhandled exception. -/
inductive RespBody where
  | html (s : String)
  | jsonObj (fields : List (String × String))
  | genericError
deriving DecidableEq, Repr

/-- An HTTP response produced by the server. -/
structure Response where
  status : Nat
  body : RespBody
deriving DecidableEq, Repr

/-- An incoming request, reduced to what the handlers read: the multipart
form, a map from field name to uploaded bytes. -/
structure Request where
  form : String → Option Bytes

/-- The module-level environment the route handlers close over: the
`classes` list, the base `path`, the loaded `learn` object, and fastai's
`open_image` decoder (external; decoding can raise). -/
structure ServerEnv where
  classes : List String
  path : String
  learn : Learner
  open_image : Bytes → Except PyError Image

/--
The `analyze` handler from `server.py`: read form field `file`
(a missing field raises `KeyError`), decode the bytes with `open_image`
(which raises on a non-image payload), run `learn.predict`, take component
`[0]` and return `JSONResponse({'result': str(prediction)})` — a
one-field JSON object, status 200.
-/
def analyze (env : ServerEnv) (req : Request) : Except PyError Response :=
  match req.form "file" with
  | none => Except.error (PyError.keyError "file")
  | some img_bytes =>
    match env.open_image img_bytes with
    | Except.error e => Except.error e
    | Except.ok img =>
      let prediction := (env.learn.predict img).category
      Except.ok { status := 200, body := RespBody.jsonObj [("result", prediction)] }

/--
The `homepage` handler from `server.py`: open `path/'view'/'index.html'`
from disk during the request and return its contents in an
`HTMLResponse` (status 200). `disk` is the text-file view of the file
system at the moment of the request; a missing file raises.
-/
def homepage (disk : String → Option String) (path : String) :
    Except PyError Response :=
  match disk (path ++ "/view/index.html") with
  | none => Except.error (PyError.fileNotFound (path ++ "/view/index.html"))
  | some s => Except.ok { status := 200, body := RespBody.html s }

/-- Starlette's dispatch of a handler result: a returned response passes
through; an uncaught exception becomes the framework's generic
500 Internal Server Error. -/
def dispatch (h : Except PyError Response) : Response :=
  match h with
  | Except.ok r => r
  | Except.error _ => { status := 500, body := RespBody.genericError }

/-- Is this event part of the fetch step (network GET or file write)? -/
def isFetchEv : Event → Bool
  | Event.netGet _ => true
  | Event.fsWrite _ _ => true
  | _ => false

/-- The condition under which `setup_learner` rewrites a load error: a
`RuntimeError` with a first argument containing `"CPU-only machine"`. -/
def isCpuIncompat : PyError → Bool
  | PyError.runtimeError (a :: _) => pyIn "CPU-only machine" a
  | _ => false

/-- After the load attempt, the only event that may still happen is the
listener starting, once. -/
def phaseAfter : List Event → Bool
  | [] => true
  | [Event.listenStart] => true
  | _ => false

/-- The startup trace is well phased: some fetch events (network GETs and
file writes), then optionally one load attempt, then optionally the
listener starting — nothing out of order, nothing repeated. -/
def wellPhased : List Event → Bool
  | [] => true
  | Event.loadAttempt :: rest => phaseAfter rest
  | e :: rest => isFetchEv e && wellPhased rest

/-- Concrete file system for witnesses: the artifact already present
everywhere. -/
def wfs : FS := fun _ => some [0]

/-- Concrete network for witnesses. -/
def wnet : String → Except PyError HttpResponse :=
  fun _ => Except.ok ⟨200, [1]⟩

/-- Concrete learner for witnesses. -/
def wlearn : Learner := ⟨fun _ => ⟨"c0: normal driving", 0, []⟩⟩

/-- Concrete loader for witnesses that fails with the CPU-only
incompatibility signature inside the first argument. -/
def wloadCpu : FS → Except PyError Learner :=
  fun _ => Except.error
    (PyError.runtimeError ["cannot load on a CPU-only machine today"])

/-- Concrete loader for witnesses that succeeds. -/
def wload : FS → Except PyError Learner := fun _ => Except.ok wlearn

/-- Concrete image decoder for witnesses: every payload decodes. -/
def wdecode : Bytes → Except PyError Image :=
  fun b => Except.ok ⟨b⟩

/-- Concrete image decoder for witnesses: every payload fails to decode. -/
def wdecodeBad : Bytes → Except PyError Image :=
  fun _ => Except.error (PyError.other "UserWarning")

/-- Concrete environment for witnesses. -/
def wenv : ServerEnv :=
  { classes := classes, path := "app", learn := wlearn,
    open_image := wdecode }

/-- Concrete environment whose decoder rejects everything. -/
def wenvBad : ServerEnv :=
  { classes := classes, path := "app", learn := wlearn,
    open_image := wdecodeBad }

/-- Concrete request for witnesses: field `file` holds three bytes. -/
def wreq : Request := ⟨fun f => if f = "file" then some [1, 2, 3] else none⟩

/-!
## Theorems for the claims
-/

/-- C2: if a file already exists at the destination path when
`download_file` is called, it performs no network call (the event trace is
empty) and leaves the whole file system — in particular the destination
file's contents — unchanged. -/
theorem spec_C2 (net : String → Except PyError HttpResponse) (fs : FS)
    (url dest : String) (b : Bytes) (hb : fs dest = some b) :
    (download_file net fs url dest).1 = [] ∧
    (download_file net fs url dest).2 = Except.ok fs ∧
    (∀ u, Event.netGet u ∉ (download_file net fs url dest).1) := by
  unfold download_file
  rw [hb]
  exact ⟨rfl, rfl, fun u h => by simp at h⟩

/-- Witness for C2 at a concrete file system with the file present. -/
theorem spec_C2_witness :
    (download_file (fun _ => Except.ok ⟨200, [9, 9]⟩)
      (fun p => if p = "d" then some [1, 2] else none) "u" "d").1 = [] ∧
    (download_file (fun _ => Except.ok ⟨200, [9, 9]⟩)
      (fun p => if p = "d" then some [1, 2] else none) "u" "d").2 =
      Except.ok (fun p => if p = "d" then some [1, 2] else none) ∧
    (∀ u, Event.netGet u ∉
      (download_file (fun _ => Except.ok ⟨200, [9, 9]⟩)
        (fun p => if p = "d" then some [1, 2] else none) "u" "d").1) :=
  spec_C2 (fun _ => Except.ok ⟨200, [9, 9]⟩)
    (fun p => if p = "d" then some [1, 2] else none) "u" "d" [1, 2] rfl

/-- C3: if no file exists at the destination path and the GET succeeds,
`download_file` performs exactly one HTTP GET, to that URL, and writes the
entire response body byte for byte to the destination path. -/
theorem spec_C3 (net : String → Except PyError HttpResponse) (fs : FS)
    (url dest : String) (resp : HttpResponse)
    (hmiss : fs dest = none) (hget : net url = Except.ok resp) :
    (download_file net fs url dest).1 =
      [Event.netGet url, Event.fsWrite dest resp.body] ∧
    ((download_file net fs url dest).1.filter isFetchEv).count
      (Event.netGet url) = 1 ∧
    ∃ fs1, (download_file net fs url dest).2 = Except.ok fs1 ∧
      fs1 dest = some resp.body ∧
      ∀ p, p ≠ dest → fs1 p = fs p := by
  unfold download_file
  rw [hmiss, hget]
  refine ⟨rfl, by simp [isFetchEv, List.count_cons], ?_⟩
  refine ⟨_, rfl, by simp, fun p hp => by simp [hp]⟩

/-- Witness for C3 at a concrete empty file system and a concrete
response. -/
theorem spec_C3_witness :
    (download_file (fun _ => Except.ok ⟨200, [7, 8, 9]⟩) (fun _ => none)
      "u" "d").1 = [Event.netGet "u", Event.fsWrite "d" [7, 8, 9]] ∧
    ((download_file (fun _ => Except.ok ⟨200, [7, 8, 9]⟩) (fun _ => none)
      "u" "d").1.filter isFetchEv).count (Event.netGet "u") = 1 ∧
    ∃ fs1, (download_file (fun _ => Except.ok ⟨200, [7, 8, 9]⟩)
        (fun _ => none) "u" "d").2 = Except.ok fs1 ∧
      fs1 "d" = some [7, 8, 9] ∧
      ∀ p, p ≠ "d" → fs1 p = none :=
  spec_C3 (fun _ => Except.ok ⟨200, [7, 8, 9]⟩) (fun _ => none) "u" "d"
    ⟨200, [7, 8, 9]⟩ rfl rfl

/-- C10: `download_file` never inspects the HTTP response status. When the
destination is absent it writes the body for any status (including error
statuses) and returns successfully; its whole behaviour is invariant under
changing the status of every response; and the persisted body makes every
later run a no-op, so a failed download is treated as a valid artifact. -/
theorem spec_C10 (net : String → Except PyError HttpResponse) (fs : FS)
    (url dest : String) (resp : HttpResponse)
    (hmiss : fs dest = none) (hget : net url = Except.ok resp) :
    (∃ fs1, (download_file net fs url dest).2 = Except.ok fs1 ∧
      fs1 dest = some resp.body) ∧
    (∀ net2 : String → Except PyError HttpResponse, ∀ resp2 : HttpResponse,
      net2 url = Except.ok resp2 → resp2.body = resp.body →
      download_file net2 fs url dest = download_file net fs url dest) ∧
    (∀ fs1, (download_file net fs url dest).2 = Except.ok fs1 →
      ∀ net3 : String → Except PyError HttpResponse,
        download_file net3 fs1 url dest = ([], Except.ok fs1)) := by
  unfold download_file
  rw [hmiss, hget]
  refine ⟨⟨_, rfl, by simp⟩, ?_, ?_⟩
  · intro net2 resp2 hget2 hbody
    rw [hget2]
    simp [hbody]
  · intro fs1 h1 net3
    have hfs1 : fs1 = fun p => if p = dest then some resp.body else fs p :=
      (Except.ok.injEq _ _).mp h1.symm
    subst hfs1
    simp

/-- Witness for C10: a GET answered with status 404 and an error page body
is still persisted and shields every later run from the network. -/
theorem spec_C10_witness :
    (∃ fs1, (download_file (fun _ => Except.ok ⟨404, [60, 104, 62]⟩)
        (fun _ => none) "u" "d").2 = Except.ok fs1 ∧
      fs1 "d" = some [60, 104, 62]) ∧
    (∀ net2 : String → Except PyError HttpResponse, ∀ resp2 : HttpResponse,
      net2 "u" = Except.ok resp2 → resp2.body = [60, 104, 62] →
      download_file net2 (fun _ => none) "u" "d" =
        download_file (fun _ => Except.ok ⟨404, [60, 104, 62]⟩)
          (fun _ => none) "u" "d") ∧
    (∀ fs1, (download_file (fun _ => Except.ok ⟨404, [60, 104, 62]⟩)
        (fun _ => none) "u" "d").2 = Except.ok fs1 →
      ∀ net3 : String → Except PyError HttpResponse,
        download_file net3 fs1 "u" "d" = ([], Except.ok fs1)) :=
  spec_C10 (fun _ => Except.ok ⟨404, [60, 104, 62]⟩) (fun _ => none)
    "u" "d" ⟨404, [60, 104, 62]⟩ rfl rfl

/-- C4: when the download step succeeds and loading the artifact raises:
a `RuntimeError` whose first argument contains `"CPU-only machine"` is
re-raised by `setup_learner` as a `RuntimeError` carrying the remediation
message `cpuMessage`; any other load error propagates out unchanged. -/
theorem spec_C4 (net : String → Except PyError HttpResponse) (fs : FS)
    (load : FS → Except PyError Learner) (url dest : String) (fs1 : FS)
    (e : PyError)
    (hdl : (download_file net fs url dest).2 = Except.ok fs1)
    (hload : load fs1 = Except.error e) :
    (isCpuIncompat e = true →
      (setup_learner net fs load url dest).2 =
        Except.error (PyError.runtimeError [cpuMessage])) ∧
    (isCpuIncompat e = false →
      (setup_learner net fs load url dest).2 = Except.error e) := by
  rcases hd : download_file net fs url dest with ⟨ev1, r⟩
  rw [hd] at hdl
  simp only at hdl
  subst hdl
  unfold setup_learner
  rw [hd]
  dsimp only
  rw [hload]
  cases e with
  | runtimeError args =>
    cases args with
    | nil =>
      refine ⟨fun hc => by simp [isCpuIncompat] at hc, fun _ => by simp⟩
    | cons a rest =>
      by_cases hp : pyIn "CPU-only machine" a = true
      · refine ⟨fun _ => by simp [hp], fun hc => ?_⟩
        simp [isCpuIncompat, hp] at hc
      · refine ⟨fun hc => ?_, fun _ => by simp [hp]⟩
        simp [isCpuIncompat, hp] at hc
  | keyError k => exact ⟨fun hc => by simp [isCpuIncompat] at hc, fun _ => by simp⟩
  | fileNotFound p => exact ⟨fun hc => by simp [isCpuIncompat] at hc, fun _ => by simp⟩
  | other n => exact ⟨fun hc => by simp [isCpuIncompat] at hc, fun _ => by simp⟩

/-- Witness for C4 at a concrete loader raising the CPU-only signature. -/
theorem spec_C4_witness :
    (isCpuIncompat
        (PyError.runtimeError ["cannot load on a CPU-only machine today"]) =
        true →
      (setup_learner wnet wfs wloadCpu "u" "d").2 =
        Except.error (PyError.runtimeError [cpuMessage])) ∧
    (isCpuIncompat
        (PyError.runtimeError ["cannot load on a CPU-only machine today"]) =
        false →
      (setup_learner wnet wfs wloadCpu "u" "d").2 =
        Except.error
          (PyError.runtimeError ["cannot load on a CPU-only machine today"])) :=
  spec_C4 wnet wfs wloadCpu "u" "d" wfs
    (PyError.runtimeError ["cannot load on a CPU-only machine today"])
    rfl rfl

/-- C1: a POST to `/analyze` whose form field `file` holds bytes that
decode to a valid image yields status 200 and a JSON body that is an
object with exactly the one field `result`, whose value is the string
form of the model's top predicted label for that image. -/
theorem spec_C1 (env : ServerEnv) (req : Request) (bs : Bytes) (img : Image)
    (hform : req.form "file" = some bs)
    (hdec : env.open_image bs = Except.ok img) :
    dispatch (analyze env req) =
      { status := 200,
        body := RespBody.jsonObj [("result", (env.learn.predict img).category)] } := by
  unfold analyze dispatch
  rw [hform]
  dsimp only
  rw [hdec]

/-- Witness for C1 at a concrete environment and request. -/
theorem spec_C1_witness :
    dispatch (analyze wenv wreq) =
      { status := 200,
        body := RespBody.jsonObj
          [("result", (wenv.learn.predict ⟨[1, 2, 3]⟩).category)] } :=
  spec_C1 wenv wreq [1, 2, 3] ⟨[1, 2, 3]⟩ rfl rfl

/-- C7: a POST to `/analyze` whose form field `file` holds bytes that do
not decode as an image gets the framework's generic server error: status
500, in particular not 200. -/
theorem spec_C7 (env : ServerEnv) (req : Request) (bs : Bytes) (e : PyError)
    (hform : req.form "file" = some bs)
    (hdec : env.open_image bs = Except.error e) :
    (dispatch (analyze env req)).status = 500 ∧
    (dispatch (analyze env req)).status ≠ 200 := by
  unfold analyze dispatch
  rw [hform]
  dsimp only
  rw [hdec]
  exact ⟨rfl, by simp⟩

/-- Witness for C7 at a concrete non-image payload. -/
theorem spec_C7_witness :
    (dispatch (analyze wenvBad wreq)).status = 500 ∧
    (dispatch (analyze wenvBad wreq)).status ≠ 200 :=
  spec_C7 wenvBad wreq [1, 2, 3] (PyError.other "UserWarning") rfl rfl

/-- C8: the in-source `classes` list is never consulted by the prediction
path: for every request, `analyze` produces the identical result under
any two values of the `classes` field of the environment (the label comes
only from the loaded model). -/
theorem spec_C8 (env : ServerEnv) (cs1 cs2 : List String) (req : Request) :
    analyze { env with classes := cs1 } req =
      analyze { env with classes := cs2 } req ∧
    dispatch (analyze { env with classes := cs1 } req) =
      dispatch (analyze { env with classes := cs2 } req) := by
  unfold analyze
  exact ⟨rfl, rfl⟩

/-- C9: a GET to `/` reads the static HTML file from disk during that
request and returns status 200 with a body equal, verbatim, to the file's
contents at that moment: two requests served against different disk
states each see their own current contents (no caching). -/
theorem spec_C9 (disk1 disk2 : String → Option String) (path s1 s2 : String)
    (h1 : disk1 (path ++ "/view/index.html") = some s1)
    (h2 : disk2 (path ++ "/view/index.html") = some s2) :
    dispatch (homepage disk1 path) = { status := 200, body := RespBody.html s1 } ∧
    dispatch (homepage disk2 path) = { status := 200, body := RespBody.html s2 } := by
  unfold homepage dispatch
  rw [h1, h2]
  exact ⟨rfl, rfl⟩

/-- Witness for C9: two concrete disk states holding different contents
for the index page. -/
theorem spec_C9_witness :
    dispatch (homepage (fun _ => some "<p>one</p>") "app") =
      { status := 200, body := RespBody.html "<p>one</p>" } ∧
    dispatch (homepage (fun _ => some "<p>two</p>") "app") =
      { status := 200, body := RespBody.html "<p>two</p>" } :=
  spec_C9 (fun _ => some "<p>one</p>") (fun _ => some "<p>two</p>")
    "app" "<p>one</p>" "<p>two</p>" rfl rfl

/-- Helper: the startup sequence emits one of three fetch-event prefixes,
and its trace ends in the load attempt exactly when it gets past the
download; a trace without the load attempt comes with an error result. -/
theorem setup_learner_shape (net : String → Except PyError HttpResponse)
    (fs : FS) (load : FS → Except PyError Learner) (url dest : String) :
    ∃ dl, (dl = [] ∨ dl = [Event.netGet url] ∨
        ∃ d, dl = [Event.netGet url, Event.fsWrite dest d]) ∧
      (((setup_learner net fs load url dest).1 = dl ∧
          ∃ e, (setup_learner net fs load url dest).2 = Except.error e) ∨
        (setup_learner net fs load url dest).1 = dl ++ [Event.loadAttempt]) := by
  unfold setup_learner download_file
  rcases hfs : fs dest with _ | b
  · rcases hnet : net url with e | resp
    · refine ⟨[Event.netGet url], Or.inr (Or.inl rfl), Or.inl ⟨?_, e, ?_⟩⟩ <;>
        simp [hfs, hnet]
    · refine ⟨[Event.netGet url, Event.fsWrite dest resp.body],
        Or.inr (Or.inr ⟨resp.body, rfl⟩), Or.inr ?_⟩
      simp [hfs, hnet]
  · refine ⟨[], Or.inl rfl, Or.inr ?_⟩
    simp [hfs]

/-- Helper: the startup sequence never starts the listener itself. -/
theorem setup_learner_no_listen (net : String → Except PyError HttpResponse)
    (fs : FS) (load : FS → Except PyError Learner) (url dest : String) :
    Event.listenStart ∉ (setup_learner net fs load url dest).1 := by
  rcases setup_learner_shape net fs load url dest with ⟨dl, hdl, hc⟩
  rcases hc with ⟨h1, _⟩ | h1 <;> rw [h1] <;>
    rcases hdl with rfl | rfl | ⟨d, rfl⟩ <;> simp

/-- C5: in every process start, the trace is well phased — all fetch
activity (network GET, file write) precedes the single load attempt,
which precedes the listener start; the fetch-then-load sequence happens at
most once, and exactly once whenever the process ends up serving; and if
any step of the sequence raises, the listener is never started. -/
theorem spec_C5 (net : String → Except PyError HttpResponse) (fs : FS)
    (load : FS → Except PyError Learner) (argv : List String)
    (path : String) :
    wellPhased (processStart net fs load argv path).1 = true ∧
    (processStart net fs load argv path).1.count Event.loadAttempt ≤ 1 ∧
    (processStart net fs load argv path).1.count Event.listenStart ≤ 1 ∧
    (Event.listenStart ∈ (processStart net fs load argv path).1 →
      Event.loadAttempt ∈ (processStart net fs load argv path).1) ∧
    (∀ fs1 learn,
      (processStart net fs load argv path).2 =
        StartupOutcome.serving fs1 learn →
      (processStart net fs load argv path).1.count Event.loadAttempt = 1 ∧
      Event.listenStart ∈ (processStart net fs load argv path).1) ∧
    (∀ e, (processStart net fs load argv path).2 = StartupOutcome.crashed e →
      Event.listenStart ∉ (processStart net fs load argv path).1) := by
  rcases hsl : setup_learner net fs load export_file_url
      (path ++ "/" ++ export_file_name) with ⟨ev, r⟩
  have shape := setup_learner_shape net fs load export_file_url
    (path ++ "/" ++ export_file_name)
  rw [hsl] at shape
  unfold processStart
  rw [hsl]
  rcases shape with ⟨dl, hdl, hc⟩
  cases r with
  | error e =>
    dsimp only
    rcases hc with ⟨h1, _⟩ | h1 <;> subst h1 <;>
      rcases hdl with rfl | rfl | ⟨d, rfl⟩ <;>
      simp [wellPhased, phaseAfter, isFetchEv, List.count_cons]
  | ok p =>
    rcases hc with ⟨_, _, hbad⟩ | h1
    · exact absurd hbad (by simp)
    subst h1
    rcases p with ⟨fs1, learn⟩
    dsimp only
    by_cases hs : argv.contains "serve"
    · rw [if_pos hs]
      rcases hdl with rfl | rfl | ⟨d, rfl⟩ <;>
        simp [wellPhased, phaseAfter, isFetchEv, List.count_cons]
    · rw [if_neg hs]
      rcases hdl with rfl | rfl | ⟨d, rfl⟩ <;>
        simp [wellPhased, phaseAfter, isFetchEv, List.count_cons]

/-- C6: once setup succeeds, a command line containing the argument
`serve` makes the process start the HTTP listener (after the setup
events); any invocation without it performs setup only and exits without
the listener ever starting. -/
theorem spec_C6 (net : String → Except PyError HttpResponse) (fs : FS)
    (load : FS → Except PyError Learner) (argv : List String)
    (path : String) (fs1 : FS) (learn : Learner)
    (hok : (setup_learner net fs load export_file_url
      (path ++ "/" ++ export_file_name)).2 = Except.ok (fs1, learn)) :
    (argv.contains "serve" = true →
      processStart net fs load argv path =
        ((setup_learner net fs load export_file_url
            (path ++ "/" ++ export_file_name)).1 ++ [Event.listenStart],
          StartupOutcome.serving fs1 learn)) ∧
    (argv.contains "serve" = false →
      processStart net fs load argv path =
        ((setup_learner net fs load export_file_url
            (path ++ "/" ++ export_file_name)).1,
          StartupOutcome.setupOnly fs1 learn) ∧
      Event.listenStart ∉ (processStart net fs load argv path).1) := by
  have hnl := setup_learner_no_listen net fs load export_file_url
    (path ++ "/" ++ export_file_name)
  rcases hsl : setup_learner net fs load export_file_url
      (path ++ "/" ++ export_file_name) with ⟨ev, r⟩
  rw [hsl] at hok hnl
  simp only at hok hnl
  subst hok
  unfold processStart
  rw [hsl]
  dsimp only
  constructor
  · intro hs
    rw [if_pos hs]
  · intro hs
    rw [if_neg (by simpa using hs)]
    exact ⟨rfl, hnl⟩

/-- Witness for C6: with the artifact already on disk and a loader that
succeeds, `serve` in argv starts the listener and its absence does not. -/
theorem spec_C6_witness :
    (List.contains ["server.py", "serve"] "serve" = true →
      processStart wnet wfs wload ["server.py", "serve"] "app" =
        ((setup_learner wnet wfs wload export_file_url
            ("app" ++ "/" ++ export_file_name)).1 ++ [Event.listenStart],
          StartupOutcome.serving wfs wlearn)) ∧
    (List.contains ["server.py", "serve"] "serve" = false →
      processStart wnet wfs wload ["server.py", "serve"] "app" =
        ((setup_learner wnet wfs wload export_file_url
            ("app" ++ "/" ++ export_file_name)).1,
          StartupOutcome.setupOnly wfs wlearn) ∧
      Event.listenStart ∉
        (processStart wnet wfs wload ["server.py", "serve"] "app").1) :=
  spec_C6 wnet wfs wload ["server.py", "serve"] "app" wfs wlearn rfl

end DriverServer
